import Mathlib

/-!
Shallow embedding of `src/sar_project/agents/terrain_agent.py`
(class `TerrainAnalystAgent`), the rule engine that combines terrain
attributes and weather attributes into obstacles, hazard interactions,
crossing-difficulty scores and terrain-change reports.

Modelling conventions:
* Python dicts keyed by location strings become association lists
  (`List (String × α)`) with `dictGet` / `dictInsert` mirroring
  `d[k]` / `d[k] = v`.
* Randomness (`random.sample`, `random.randint`, `random.uniform`, ...) is
  supplied as explicit draw records: each operation takes as input exactly
  the values the source would draw.
* Wall-clock timestamps (`datetime.now().isoformat()`) are opaque `Nat`
  tokens passed in by the caller.
* Python numbers are embedded as `Int` where the source only ever holds
  `randint` results and as `ℚ` where floats can occur.
* The weather collaborator (`sar_project/agents/weather_agent.py`, not part
  of the sources) is an oracle `WeatherOracle`; its snapshot type is
  modelled from the spec.
-/

namespace SAR

/-- Association-list lookup, mirroring Python `k in d` / `d[k]`. -/
def dictGet {α : Type} : List (String × α) → String → Option α
  | [], _ => none
  | (k', v) :: rest, k => if k' = k then some v else dictGet rest k

/-- Association-list insert with overwrite, mirroring Python `d[k] = v`. -/
def dictInsert {α : Type} : List (String × α) → String → α → List (String × α)
  | [], k, v => [(k, v)]
  | (k', v') :: rest, k, v =>
    if k' = k then (k, v) :: rest else (k', v') :: dictInsert rest k v

/-- Bool test that `needle` occurs as a contiguous substring of `hay`,
mirroring Python `needle in hay` on strings. -/
def listHasPrefixB : List Char → List Char → Bool
  | [], _ => true
  | _ :: _, [] => false
  | a :: as, b :: bs => a = b && listHasPrefixB as bs

/-- Helper for `strContains`: does `needle` occur in the char list? -/
def listContainsB (needle : List Char) : List Char → Bool
  | [] => listHasPrefixB needle []
  | b :: bs => listHasPrefixB needle (b :: bs) || listContainsB needle bs

/-- Python `needle in hay` for strings. -/
def strContains (hay needle : String) : Bool :=
  listContainsB needle.data hay.data

/-- Python `s.lower()` (over the ASCII range relevant to the format
strings compared at line 553). -/
def strLower (s : String) : String := ⟨s.data.map Char.toLower⟩

/-- Modelled from the spec: `WeatherSnapshot` is the external type produced
by `weather_agent.get_current_conditions` (weather_agent.py is not among the
sources).  Spec §3: "attributes consumed: temperature, wind_speed,
precipitation, visibility"; it has no other fields — in particular no
`slope` key. -/
structure Weather where
  temperature : ℚ
  wind_speed : ℚ
  precipitation : ℚ
  visibility : ℚ
deriving DecidableEq, Repr

/-- Python `weather.get(key, dflt)` over a `Weather` snapshot: the four
fields are always present, any other key falls back to the default. -/
def weatherGet (w : Weather) (key : String) (dflt : ℚ) : ℚ :=
  if key = "temperature" then w.temperature
  else if key = "wind_speed" then w.wind_speed
  else if key = "precipitation" then w.precipitation
  else if key = "visibility" then w.visibility
  else dflt

/-- The external weather collaborator, spec §1: "exposes
`get_current_conditions(location) -> WeatherSnapshot` and
`assess_weather_risk(location) -> {risks: [...]}`. Treated as an opaque
oracle." -/
structure WeatherOracle where
  conditions : String → Weather
  risks : String → List String

/-- A terrain-weather interaction, as appended by
`_analyze_terrain_weather_interactions` (fields `type`, `description`,
`severity` of the interaction dicts; `ty` stands for the `"type"` key). -/
structure Interaction where
  ty : String
  description : String
  severity : String
deriving DecidableEq, Repr

/-- The analysis dict built by `analyze_terrain` (terrain_agent.py lines
359-383).  The three weather-dependent keys are only present when
`include_weather` was true, hence the `Option`s. -/
structure TerrainAnalysis where
  location : String
  resolution : String
  terrain_types : List String
  elevation_min : Int
  elevation_max : Int
  slope : Int
  water_bodies : Int
  vegetation_density : ℚ
  soil_type : String
  analysis_timestamp : Nat
  weather_conditions : Option Weather
  weather_risks : Option (List String)
  terrain_weather_interactions : Option (List Interaction)
deriving DecidableEq, Repr

/-- `_analyze_terrain_weather_interactions` (lines 747-772) evaluated over
the nine templates of `_weather_interaction_templates` (lines 108-210) in
declaration order.  Severity lambdas taking ONE argument are applied by the
source to `weather_data` (line 766) — faithfully reproduced here, including
for `reduced_visibility`, whose one-argument lambda reads
`terrain.get("slope", 0)` from whatever it is handed, i.e. from the weather
snapshot; two-argument lambdas get `(terrain_analysis, weather_data)`. -/
def analyzeTerrainWeatherInteractions (t : TerrainAnalysis) (w : Weather) :
    List Interaction :=
  (if "mountain" ∈ t.terrain_types ∧ weatherGet w "precipitation" 0 > 10 then
    [{ ty := "increased_landslide_risk",
       description := "Rain increases the risk of landslides on steep slopes",
       severity := if weatherGet w "precipitation" 0 > 30 then "high" else "medium" }]
   else []) ++
  (if "river" ∈ t.terrain_types ∧ weatherGet w "precipitation" 0 > 10 then
    [{ ty := "rising_water_levels",
       description := "Rain may cause water levels to rise",
       severity := if weatherGet w "precipitation" 0 > 40 then "high" else "medium" }]
   else []) ++
  (if t.soil_type = "clay" ∧ weatherGet w "precipitation" 0 > 10 then
    [{ ty := "slippery_ground",
       description := "Rain on clay soil creates slippery conditions",
       severity := "medium" }]
   else []) ++
  (if "forest" ∈ t.terrain_types ∧ weatherGet w "wind_speed" 0 > 30 then
    [{ ty := "falling_branches",
       description := "High winds may cause branches or trees to fall",
       severity := "high" }]
   else []) ++
  (if t.elevation_max > 1000 ∧ weatherGet w "wind_speed" 0 > 30 then
    [{ ty := "dangerous_ridgelines",
       description := "High winds on exposed ridgelines create hazardous conditions",
       severity := "high" }]
   else []) ++
  (if "river" ∈ t.terrain_types ∧ weatherGet w "temperature" 20 < 0 then
    [{ ty := "ice_formation",
       description := "Freezing temperatures create ice on water crossings",
       severity := "medium" }]
   else []) ++
  (if weatherGet w "temperature" 20 < 0 then
    [{ ty := "slippery_surfaces",
       description := "Freezing temperatures create icy surfaces",
       severity := if (t.slope : ℚ) > 20 then "high" else "medium" }]
   else []) ++
  (if "desert" ∈ t.terrain_types ∧ weatherGet w "temperature" 20 > 35 then
    [{ ty := "extreme_heat_danger",
       description := "High temperatures increase risk of heat-related illness",
       severity := "extreme" }]
   else []) ++
  (if weatherGet w "visibility" 10 < 5 then
    [{ ty := "reduced_visibility",
       description := "Poor visibility increases risk of navigation errors",
       severity := if weatherGet w "slope" 0 > 30 then "high" else "medium" }]
   else [])

/-- A detail value inside an obstacle's `details` dict: the source only ever
stores `randint` results, `uniform` floats, or fixed strings there. -/
inductive DVal where
  | di : Int → DVal
  | dq : ℚ → DVal
  | ds : String → DVal
deriving DecidableEq, Repr

/-- An obstacle dict as built by `_create_obstacle` (lines 451-471):
`type`, `severity`, `coordinates`, `details` (`ty` stands for the `"type"`
key). -/
structure Obstacle where
  ty : String
  severity : String
  coordinates : ℚ × ℚ
  details : List (String × DVal)
deriving DecidableEq, Repr

/-- The `type`/`severity` part of `_obstacle_templates` (lines 29-105); the
`details` entries of the templates are random-value generators and appear
here as the draws consumed by `_create_obstacle`. -/
def obstacleTemplates : List (String × String) :=
  [("generic_obstacle", "medium"),
   ("steep_slope", "high"),
   ("water_crossing", "medium"),
   ("dense_vegetation", "medium"),
   ("sandy_terrain", "medium"),
   ("boggy_ground", "high"),
   ("flash_flood", "extreme"),
   ("low_visibility_area", "high"),
   ("wind_hazard", "high")]

/-- Per-call random draws for one `_create_obstacle` invocation: the jitter
of `_generate_random_coordinates` (line 1006) and the generated `details`
values (the evaluated template lambdas, lines 33-104). -/
structure ObstacleDraw where
  jitter : ℚ × ℚ
  details : List (String × DVal)

/-- Python `round(x, n)` on the exact rational values handled here
(banker's-rounding ties of binary floats do not arise in any property we
state; `round` is the integer rounding of Mathlib). -/
def pyRound (n : Nat) (x : ℚ) : ℚ :=
  (round (x * (10 : ℚ) ^ n) : Int) / (10 : ℚ) ^ n

/-- `_parse_location_to_coordinates` (lines 1013-1020).  Python's opaque,
process-dependent `hash` builtin is the oracle `h`; like Python's `%` and
`//` on a nonnegative left operand, `Int.emod`/`Int.div` agree with the
mathematical mod/floor-div here. -/
def parseLocation (h : String → Int) (location : String) : ℚ × ℚ :=
  let locationHash := (h location) % 1000
  let base_lat : ℚ := 35 + ((locationHash % 10 : Int) : ℚ)
  let base_lon : ℚ := -120 + ((locationHash / 10 : Int) : ℚ)
  (pyRound 6 base_lon, pyRound 6 base_lat)

/-- `_generate_random_coordinates` (lines 1006-1011); the two
`random.uniform(-0.05, 0.05)` draws are the jitter pair. -/
def generateRandomCoordinates (h : String → Int) (location : String)
    (jitter : ℚ × ℚ) : ℚ × ℚ :=
  let base := parseLocation h location
  (pyRound 6 (base.1 + jitter.1), pyRound 6 (base.2 + jitter.2))

/-- `_create_obstacle` (lines 451-471).  Every call site passes a key of
`obstacleTemplates`, so the `ValueError` branch for unknown types is
unreachable; the `getD "medium"` default stands in for it. -/
def createObstacle (h : String → Int) (obstacle_type : String)
    (location : String) (draw : ObstacleDraw) : Obstacle :=
  { ty := obstacle_type,
    severity := (dictGet obstacleTemplates obstacle_type).getD "medium",
    coordinates := generateRandomCoordinates h location draw.jitter,
    details := draw.details }

/-- The two per-location caches of the agent: `self.current_analysis` and
`self.obstacle_database` (lines 22-23).  (`self.terrain_maps` is declared
but never used by any method; the knowledge base is a passive external
sink, spec §1.) -/
structure AgentState where
  current_analysis : List (String × TerrainAnalysis)
  obstacle_database : List (String × List Obstacle)
deriving DecidableEq

/-- The agent's caches at construction time (lines 21-23). -/
def initialState : AgentState := { current_analysis := [], obstacle_database := [] }

/-- The random draws of one `analyze_terrain` call (lines 362-370):
`random.sample` of three terrain types, the two elevation `randint`s, slope,
water-body count, vegetation density, soil type. -/
structure AnalysisDraws where
  terrain_types : List String
  elevation_min : Int
  elevation_max : Int
  slope : Int
  water_bodies : Int
  vegetation_density : ℚ
  soil_type : String

/-- The ranges the source draws from in `analyze_terrain`:
`random.randint(100, 1300)` for the elevation minimum and
`random.randint(1300, 1500)` for the maximum (lines 357, 364-365; both
endpoints inclusive). -/
def ElevationDrawsInRange (d : AnalysisDraws) : Prop :=
  100 ≤ d.elevation_min ∧ d.elevation_min ≤ 1300 ∧
  1300 ≤ d.elevation_max ∧ d.elevation_max ≤ 1500

/-- `analyze_terrain` (lines 352-390): builds the analysis dict from the
draws, optionally attaches weather data and interactions, caches it under
the location, and returns it. -/
def analyzeTerrain (wo : WeatherOracle) (st : AgentState)
    (location : String) (resolution : String) (include_weather : Bool)
    (d : AnalysisDraws) (ts : Nat) : TerrainAnalysis × AgentState :=
  let base : TerrainAnalysis :=
    { location := location, resolution := resolution,
      terrain_types := d.terrain_types,
      elevation_min := d.elevation_min, elevation_max := d.elevation_max,
      slope := d.slope, water_bodies := d.water_bodies,
      vegetation_density := d.vegetation_density, soil_type := d.soil_type,
      analysis_timestamp := ts,
      weather_conditions := none, weather_risks := none,
      terrain_weather_interactions := none }
  let analysis :=
    if include_weather then
      let weather_data := wo.conditions location
      { base with
          weather_conditions := some weather_data,
          weather_risks := some (wo.risks location),
          terrain_weather_interactions :=
            some (analyzeTerrainWeatherInteractions base weather_data) }
    else base
  (analysis,
   { st with current_analysis := dictInsert st.current_analysis location analysis })

/-- A placeholder analysis for the provably unreachable `KeyError` branches
(`self.current_analysis[location]` immediately after the read-through
`analyze_terrain` call has cached the location). -/
def TerrainAnalysis.dummy : TerrainAnalysis :=
  { location := "", resolution := "", terrain_types := [],
    elevation_min := 0, elevation_max := 0, slope := 0, water_bodies := 0,
    vegetation_density := 0, soil_type := "", analysis_timestamp := 0,
    weather_conditions := none, weather_risks := none,
    terrain_weather_interactions := none }

/-- The obstacle-list construction of `identify_obstacles` (lines 399-439),
run against the cached analysis; `od` supplies the random draw for each
`_create_obstacle` call (each template key is created at most once per
call). -/
def buildObstacles (h : String → Int) (analysis : TerrainAnalysis)
    (location : String) (include_weather : Bool)
    (od : String → ObstacleDraw) : List Obstacle :=
  [createObstacle h "generic_obstacle" location (od "generic_obstacle")] ++
  (if "mountain" ∈ analysis.terrain_types then
    [createObstacle h "steep_slope" location (od "steep_slope")] else []) ++
  (if "river" ∈ analysis.terrain_types ∨ strContains location "obstacle_type" then
    [createObstacle h "water_crossing" location (od "water_crossing")] else []) ++
  (if analysis.vegetation_density > 7/10 then
    [createObstacle h "dense_vegetation" location (od "dense_vegetation")] else []) ++
  (if "desert" ∈ analysis.terrain_types then
    [createObstacle h "sandy_terrain" location (od "sandy_terrain")] else []) ++
  (if "swamp" ∈ analysis.terrain_types then
    [createObstacle h "boggy_ground" location (od "boggy_ground")] else []) ++
  (match (if include_weather then analysis.weather_conditions else none) with
   | none => []
   | some weather =>
     (if weatherGet weather "precipitation" 0 > 30 then
       [createObstacle h "flash_flood" location (od "flash_flood")] else []) ++
     (if weatherGet weather "visibility" 10 < 3 then
       let o := createObstacle h "low_visibility_area" location (od "low_visibility_area")
       let d1 := dictInsert o.details "visibility_meters"
         (DVal.dq (weatherGet weather "visibility" 0 * 1000))
       let d2 := dictInsert d1 "caused_by"
         (DVal.ds (if weatherGet weather "temperature" 20 < 15 then "fog" else "haze"))
       [{ o with details := d2 }]
      else []) ++
     (if weatherGet weather "wind_speed" 0 > 40 then
       let o := createObstacle h "wind_hazard" location (od "wind_hazard")
       let d1 := dictInsert o.details "wind_speed_kph"
         (DVal.dq (weatherGet weather "wind_speed" 0))
       let d2 := dictInsert d1 "risk"
         (DVal.ds (if "forest" ∈ analysis.terrain_types then "falling branches"
                   else "reduced stability"))
       [{ o with details := d2 }]
      else []))

/-- The result dict of `identify_obstacles` (lines 443-449). -/
structure IdentifyResult where
  location : String
  obstacle_count : Nat
  obstacles : List Obstacle
  weather_factored : Bool
  analysis_timestamp : Nat
deriving DecidableEq

/-- `identify_obstacles` (lines 392-449): read-through on the analysis
cache (re-analysing with draws `ad` at timestamp `ats` when absent), builds
the obstacle list, overwrites the obstacle cache, and reports at timestamp
`ts`. -/
def identifyObstacles (wo : WeatherOracle) (h : String → Int)
    (st : AgentState) (location : String) (include_weather : Bool)
    (ad : AnalysisDraws) (ats : Nat) (od : String → ObstacleDraw) (ts : Nat) :
    IdentifyResult × AgentState :=
  let st1 :=
    if (dictGet st.current_analysis location).isNone then
      (analyzeTerrain wo st location "medium" include_weather ad ats).2
    else st
  let analysis := (dictGet st1.current_analysis location).getD TerrainAnalysis.dummy
  let obstacles := buildObstacles h analysis location include_weather od
  let st2 := { st1 with
    obstacle_database := dictInsert st1.obstacle_database location obstacles }
  ({ location := location, obstacle_count := obstacles.length,
     obstacles := obstacles, weather_factored := include_weather,
     analysis_timestamp := ts }, st2)

/-- A terrain change dict from `_terrain_change_templates` (lines 213-261). -/
structure Change where
  ty : String
  description : String
  affected_areas : List String
  severity : String
deriving DecidableEq, Repr

/-- The `change` record of the `increased_water_levels` template (lines 218-223). -/
def increasedWaterChange : Change :=
  { ty := "increased_water_levels",
    description := "Recent rainfall may have raised water levels",
    affected_areas := ["river banks", "low-lying areas"],
    severity := "medium" }

/-- The `change` record of the `fallen_trees` template (lines 230-235). -/
def fallenTreesChange : Change :=
  { ty := "fallen_trees",
    description := "Increased winds may have caused tree falls",
    affected_areas := ["forested areas", "trails"],
    severity := "high" }

/-- The `change` record of the `snow_melt` template (lines 242-247). -/
def snowMeltChange : Change :=
  { ty := "snow_melt",
    description := "Rising temperatures are causing snow and ice melt",
    affected_areas := ["slopes", "water crossings"],
    severity := "medium" }

/-- The `change` record of the `freezing_conditions` template (lines 254-259). -/
def freezingChange : Change :=
  { ty := "freezing_conditions",
    description := "Dropping temperatures are causing icy conditions",
    affected_areas := ["paths", "slopes", "water crossings"],
    severity := "high" }

/-- The template loop of `monitor_terrain_changes` (lines 578-590) over
`_terrain_change_templates` in declaration order; the `fallen_trees`
condition additionally receives the cached analysis. -/
def detectTerrainChanges (last : TerrainAnalysis) (old_weather current_weather : Weather) :
    List Change :=
  (if weatherGet current_weather "precipitation" 0 >
      weatherGet old_weather "precipitation" 0 + 20 then
    [increasedWaterChange] else []) ++
  (if weatherGet current_weather "wind_speed" 0 >
      weatherGet old_weather "wind_speed" 0 + 15 ∧ "forest" ∈ last.terrain_types then
    [fallenTreesChange] else []) ++
  (if weatherGet old_weather "temperature" 0 < 0 ∧
      weatherGet current_weather "temperature" 0 > 5 then
    [snowMeltChange] else []) ++
  (if weatherGet old_weather "temperature" 0 > 0 ∧
      weatherGet current_weather "temperature" 0 < 0 then
    [freezingChange] else [])

/-- The two result shapes of `monitor_terrain_changes`: the structured
error dict of lines 561-565 and the report dict of lines 592-599. -/
inductive MonitorResult where
  | noAnalysis (location error recommendation : String)
  | report (location : String) (last_analysis : Nat) (current_time : Nat)
      (detected_changes : List Change) (requires_reanalysis : Bool)
      (current_weather : Weather)
deriving DecidableEq

/-- The `detected_changes` field of a monitor result (empty for the
error shape, which has no such key). -/
def MonitorResult.detectedChanges : MonitorResult → List Change
  | .noAnalysis _ _ _ => []
  | .report _ _ _ changes _ _ => changes

/-- The `requires_reanalysis` field of a monitor result (false for the
error shape, which has no such key). -/
def MonitorResult.requiresReanalysis : MonitorResult → Bool
  | .noAnalysis _ _ _ => false
  | .report _ _ _ _ b _ => b

/-- `monitor_terrain_changes` (lines 558-599): pure read of the caches; on a
cached location compares the stored weather snapshot (when present) against
the oracle's current one.  The method performs no cache writes, so the
state is returned unchanged. -/
def monitorTerrainChanges (wo : WeatherOracle) (st : AgentState)
    (location : String) (ts : Nat) : MonitorResult × AgentState :=
  match dictGet st.current_analysis location with
  | none =>
    (MonitorResult.noAnalysis location "No prior analysis available"
      "Run terrain analysis first", st)
  | some last_analysis =>
    let current_weather := wo.conditions location
    let terrain_changes :=
      match last_analysis.weather_conditions with
      | none => []
      | some old_weather => detectTerrainChanges last_analysis old_weather current_weather
    (MonitorResult.report location last_analysis.analysis_timestamp ts
      terrain_changes (decide (0 < terrain_changes.length)) current_weather, st)

/-- `base_difficulties` (lines 623-632). -/
def baseDifficulties : List (String × Int) :=
  [("steep_slope", 3), ("water_crossing", 4), ("dense_vegetation", 2),
   ("flash_flood", 5), ("sandy_terrain", 2), ("boggy_ground", 3),
   ("low_visibility_area", 3), ("wind_hazard", 2)]

/-- `base_difficulties.get(obstacle_type, 3)` (line 636). -/
def baseScore (obstacle_type : String) : Int :=
  (dictGet baseDifficulties obstacle_type).getD 3

/-- The additive weather modifiers of `evaluate_crossing_difficulty`
(lines 637-656). -/
def weatherModifiers (obstacle_type : String) (weather : Weather) : Int :=
  let m :=
    if obstacle_type = "water_crossing" then
      (if weatherGet weather "precipitation" 0 > 20 then 2 else 0) +
      (if weatherGet weather "temperature" 20 < 5 then 1 else 0)
    else if obstacle_type = "steep_slope" then
      (if weatherGet weather "precipitation" 0 > 10 then 2 else 0) +
      (if weatherGet weather "wind_speed" 0 > 30 then 1 else 0)
    else if obstacle_type = "dense_vegetation" then
      (if weatherGet weather "wind_speed" 0 > 20 then 1 else 0)
    else 0
  m + (if weatherGet weather "visibility" 10 < 5 then 1 else 0)

/-- `final_score = base_score + weather_modifiers` (line 658). -/
def finalScore (obstacle_type : String) (weather : Weather) : Int :=
  baseScore obstacle_type + weatherModifiers obstacle_type weather

/-- `_score_to_difficulty` (lines 687-696). -/
def scoreToDifficulty (score : Int) : String :=
  if score ≤ 2 then "easy"
  else if score ≤ 4 then "moderate"
  else if score ≤ 6 then "difficult"
  else "extreme"

/-- `_crossing_recommendations` (lines 276-307). -/
def crossingRecommendations : List (String × List (String × String)) :=
  [("water_crossing",
    [("easy", "Safe to cross at marked points"),
     ("moderate", "Use walking stick for stability; consider water shoes"),
     ("difficult", "Use rope assist system; avoid crossing if alone"),
     ("extreme", "Do not attempt crossing; find alternate route")]),
   ("steep_slope",
    [("easy", "Use proper footwear with good traction"),
     ("moderate", "Use hiking poles; take breaks on ascent"),
     ("difficult", "Use climbing equipment; set safety lines"),
     ("extreme", "Technical climbing skills required; consider alternate route")]),
   ("dense_vegetation",
    [("easy", "Follow established trails"),
     ("moderate", "Use protective clothing; bring machete for clearing"),
     ("difficult", "Seek animal trails; progress will be slow"),
     ("extreme", "Consider aerial extraction if available")]),
   ("flash_flood",
    [("easy", "Cross at shallow points; monitor upstream"),
     ("moderate", "Delay crossing if water rising; use walking stick"),
     ("difficult", "Find alternate route or wait for water to recede"),
     ("extreme", "Do not attempt crossing; seek higher ground")]),
   ("boggy_ground",
    [("easy", "Stay on marked trails"),
     ("moderate", "Test ground firmness before steps; use hiking poles"),
     ("difficult", "Use snowshoe-like platforms to distribute weight"),
     ("extreme", "Avoid area completely; significant risk of sinking")])]

/-- `_get_crossing_recommendation` (lines 698-703). -/
def getCrossingRecommendation (obstacle_type difficulty : String) : String :=
  (dictGet ((dictGet crossingRecommendations obstacle_type).getD []) difficulty).getD
    ("Exercise caution appropriate to " ++ difficulty ++ " rating")

/-- `base_times` of `_estimate_crossing_time` (lines 707-716). -/
def baseTimes : List (String × ℚ) :=
  [("water_crossing", 5), ("steep_slope", 15), ("dense_vegetation", 10),
   ("sandy_terrain", 7), ("boggy_ground", 12), ("flash_flood", 20),
   ("low_visibility_area", 8), ("wind_hazard", 5)]

/-- `multipliers` of `_estimate_crossing_time` (lines 718-723). -/
def tierMultipliers : List (String × ℚ) :=
  [("easy", 7/10), ("moderate", 1), ("difficult", 3/2), ("extreme", 5/2)]

/-- Numeric view of a detail value for the arithmetic in
`_estimate_crossing_time` (the reachable detail fields there are numbers). -/
def DVal.toRat : DVal → ℚ
  | .di n => (n : ℚ)
  | .dq q => q
  | .ds _ => 0

/-- `_estimate_crossing_time` (lines 705-745).  `fsqrt` is the oracle for
the floating-point `** 0.5` of line 742 (square roots of integers are
irrational in general, so the float result is an input, not computed). -/
def estimateCrossingTime (fsqrt : ℚ → ℚ) (obstacle_type difficulty : String)
    (obstacle : Obstacle) : ℚ :=
  let base_time0 := (dictGet baseTimes obstacle_type).getD 10
  let multiplier := (dictGet tierMultipliers difficulty).getD 1
  let base_time :=
    if obstacle.details = [] then base_time0
    else if obstacle_type = "water_crossing" ∧
        (dictGet obstacle.details "width_meters").isSome then
      ((dictGet obstacle.details "width_meters").getD (DVal.di 0)).toRat * (1/2)
    else if obstacle_type = "steep_slope" ∧
        (dictGet obstacle.details "length_meters").isSome then
      ((dictGet obstacle.details "length_meters").getD (DVal.di 0)).toRat * (1/10)
    else if obstacle_type = "dense_vegetation" ∧
        (dictGet obstacle.details "area_sq_meters").isSome then
      fsqrt ((dictGet obstacle.details "area_sq_meters").getD (DVal.di 0)).toRat * (1/5)
    else base_time0
  pyRound 1 (base_time * multiplier)

/-- Index of the first occurrence of an obstacle in the cached list,
mirroring `self.obstacle_database[location].index(obstacle)` (line 662;
the obstacle is a member, so the `ValueError` branch is unreachable and 0
stands in for it). -/
def idxOfObs (o : Obstacle) : List Obstacle → Nat
  | [] => 0
  | x :: xs => if x = o then 0 else idxOfObs o xs + 1

/-- One entry of the `evaluations` list of `evaluate_crossing_difficulty`
(lines 661-677). -/
structure Evaluation where
  obstacle_id : Nat
  coordinates : ℚ × ℚ
  base_difficulty : Int
  weather_modifier : Int
  final_difficulty : Int
  difficulty_rating : String
  crossing_recommendation : String
  estimated_crossing_time : ℚ
deriving DecidableEq

/-- The two result shapes of `evaluate_crossing_difficulty`: the structured
error dict of lines 614-621 and the report dict of lines 679-685. -/
inductive EvalResult where
  | noMatch (location obstacle_type : String) (current_weather : Weather)
      (error recommendation : String)
  | report (location obstacle_type : String) (current_weather : Weather)
      (evaluation_timestamp : Nat) (evaluations : List Evaluation)
deriving DecidableEq

/-- The `evaluations` field of an evaluation result (empty for the error
shape, which has no such key). -/
def EvalResult.evals : EvalResult → List Evaluation
  | .noMatch _ _ _ _ _ => []
  | .report _ _ _ _ evals => evals

/-- The shared read-through prelude of `get_terrain_map` (lines 544-548)
and `evaluate_crossing_difficulty` (lines 603-607): analyse the location if
its analysis is absent, then identify obstacles if its obstacle list is
absent. -/
def readThroughCaches (wo : WeatherOracle) (h : String → Int)
    (st : AgentState) (location : String) (include_weather : Bool)
    (ad : AnalysisDraws) (ats : Nat) (od : String → ObstacleDraw) (ots : Nat) :
    AgentState :=
  let st1 :=
    if (dictGet st.current_analysis location).isNone then
      (analyzeTerrain wo st location "medium" include_weather ad ats).2
    else st
  if (dictGet st1.obstacle_database location).isNone then
    (identifyObstacles wo h st1 location include_weather ad ats od ots).2
  else st1

/-- The per-obstacle loop body of `evaluate_crossing_difficulty`
(lines 635-677). -/
def mkEvaluation (fsqrt : ℚ → ℚ) (obstacle_type : String) (weather : Weather)
    (db : List Obstacle) (obstacle : Obstacle) : Evaluation :=
  let base_score := baseScore obstacle_type
  let modifiers := weatherModifiers obstacle_type weather
  let final := finalScore obstacle_type weather
  let difficulty_rating := scoreToDifficulty final
  { obstacle_id := idxOfObs obstacle db,
    coordinates := obstacle.coordinates,
    base_difficulty := base_score,
    weather_modifier := modifiers,
    final_difficulty := final,
    difficulty_rating := difficulty_rating,
    crossing_recommendation := getCrossingRecommendation obstacle_type difficulty_rating,
    estimated_crossing_time := estimateCrossingTime fsqrt obstacle_type difficulty_rating obstacle }

/-- The result construction of `evaluate_crossing_difficulty`
(lines 609-685) against a given obstacle list: filter by type, report the
structured error when nothing matches (lines 614-621), otherwise score
every match. -/
def evaluateAgainst (fsqrt : ℚ → ℚ) (location obstacle_type : String)
    (weather : Weather) (db : List Obstacle) (ts : Nat) : EvalResult :=
  let matching_obstacles := db.filter (fun o => o.ty = obstacle_type)
  if matching_obstacles = [] then
    EvalResult.noMatch location obstacle_type weather
      "No matching obstacles found"
      "Run identify_obstacles to update obstacle database or try a different obstacle type"
  else
    EvalResult.report location obstacle_type weather ts
      (matching_obstacles.map (mkEvaluation fsqrt obstacle_type weather db))

/-- `evaluate_crossing_difficulty` (lines 601-685): read-through on both
caches (note lines 604 and 607 call `analyze_terrain` / `identify_obstacles`
with `include_weather` defaulted to true), then filters the cached obstacles
by type and scores each match against the current weather. -/
def evaluateCrossingDifficulty (wo : WeatherOracle) (h : String → Int)
    (fsqrt : ℚ → ℚ) (st : AgentState) (location obstacle_type : String)
    (ad : AnalysisDraws) (ats : Nat) (od : String → ObstacleDraw) (ots : Nat)
    (ts : Nat) : EvalResult × AgentState :=
  let st2 := readThroughCaches wo h st location true ad ats od ots
  let db := (dictGet st2.obstacle_database location).getD []
  (evaluateAgainst fsqrt location obstacle_type (wo.conditions location) db ts, st2)

/-- A property value inside a GeoJSON feature's `properties` dict. -/
inductive PVal where
  | pi : Int → PVal
  | pq : ℚ → PVal
  | ps : String → PVal
  | plist : List PVal → PVal

/-- Detail values transcribed into feature properties (line 812). -/
def DVal.toP : DVal → PVal
  | .di n => PVal.pi n
  | .dq q => PVal.pq q
  | .ds s => PVal.ps s

/-- A GeoJSON geometry: the source emits one polygon and point features. -/
inductive Geometry where
  | point (coords : ℚ × ℚ)
  | polygon (ring : List (ℚ × ℚ))

/-- A GeoJSON feature (`"type": "Feature"` is implicit in the shape). -/
structure Feature where
  geometry : Geometry
  properties : List (String × PVal)

/-- A GeoJSON FeatureCollection (`ty` is the constant `"type"` key). -/
structure GeoJson where
  ty : String
  features : List Feature

/-- `_generate_geojson` (lines 774-865): terrain polygon, one point per
obstacle, and — when weather was included in the analysis — a weather
marker plus one jittered point per cached interaction.  `h` is the Python
`hash` oracle; `jit` supplies the two `random.uniform(-0.02, 0.02)` draws
per interaction index. -/
def generateGeojson (h : String → Int) (jit : Nat → ℚ × ℚ)
    (location : String) (analysis : TerrainAnalysis)
    (obstacles : List Obstacle) (include_weather : Bool) : GeoJson :=
  let center := parseLocation h location
  let terrainFeature : Feature :=
    { geometry := Geometry.polygon
        [(center.1 - 1/20, center.2 - 1/20),
         (center.1 + 1/20, center.2 - 1/20),
         (center.1 + 1/20, center.2 + 1/20),
         (center.1 - 1/20, center.2 + 1/20),
         (center.1 - 1/20, center.2 - 1/20)],
      properties :=
        [("name", PVal.ps ("Terrain area: " ++ location)),
         ("terrain_types", PVal.plist (analysis.terrain_types.map PVal.ps)),
         ("elevation_range", PVal.plist
            [PVal.pi analysis.elevation_min, PVal.pi analysis.elevation_max]),
         ("vegetation_density", PVal.pq analysis.vegetation_density),
         ("soil_type", PVal.ps analysis.soil_type)] }
  let obstacleFeatures := obstacles.enum.map (fun p =>
    let props0 :=
      [("name", PVal.ps ("Obstacle " ++ toString (p.1 + 1))),
       ("type", PVal.ps p.2.ty),
       ("severity", PVal.ps p.2.severity)]
    let props := p.2.details.foldl
      (fun acc kv => dictInsert acc kv.1 kv.2.toP) props0
    { geometry := Geometry.point p.2.coordinates, properties := props : Feature })
  let weatherFeatures :=
    match (if include_weather then analysis.weather_conditions else none) with
    | none => []
    | some weather =>
      let marker : Feature :=
        { geometry := Geometry.point center,
          properties :=
            [("name", PVal.ps "Weather Conditions"),
             ("temperature", PVal.pq weather.temperature),
             ("wind_speed", PVal.pq weather.wind_speed),
             ("precipitation", PVal.pq weather.precipitation),
             ("visibility", PVal.pq weather.visibility),
             ("feature_type", PVal.ps "weather_marker")] }
      let impactFeatures :=
        match analysis.terrain_weather_interactions with
        | none => []
        | some interactions => interactions.enum.map (fun q =>
            let offset := (center.1 + (jit q.1).1, center.2 + (jit q.1).2)
            { geometry := Geometry.point offset,
              properties :=
                [("name", PVal.ps ("Weather Impact " ++ toString (q.1 + 1))),
                 ("type", PVal.ps q.2.ty),
                 ("description", PVal.ps q.2.description),
                 ("severity", PVal.ps q.2.severity),
                 ("feature_type", PVal.ps "weather_impact")] : Feature })
      marker :: impactFeatures
  { ty := "FeatureCollection",
    features := terrainFeature :: (obstacleFeatures ++ weatherFeatures) }

/-- The two result shapes of `get_terrain_map`: the GeoJSON value of line
554 and the error dict of line 556. -/
inductive MapResult where
  | geo (g : GeoJson)
  | unsupported (error : String)

/-- `get_terrain_map` (lines 542-556): read-through on both caches, then
dispatches on `format.lower()`. -/
def getTerrainMap (wo : WeatherOracle) (h : String → Int) (jit : Nat → ℚ × ℚ)
    (st : AgentState) (location fmt : String) (include_weather : Bool)
    (ad : AnalysisDraws) (ats : Nat) (od : String → ObstacleDraw) (ots : Nat) :
    MapResult × AgentState :=
  let st2 := readThroughCaches wo h st location include_weather ad ats od ots
  let obstacles := (dictGet st2.obstacle_database location).getD []
  let analysis := (dictGet st2.current_analysis location).getD TerrainAnalysis.dummy
  if strLower fmt = "geojson" then
    (MapResult.geo (generateGeojson h jit location analysis obstacles include_weather), st2)
  else
    (MapResult.unsupported ("Unsupported format: " ++ fmt), st2)

/-! ### Concrete fixtures used by witnesses and counterexamples -/

/-- A calm weather snapshot (every threshold in the rule tables is clear). -/
def w0 : Weather := { temperature := 20, wind_speed := 0, precipitation := 0, visibility := 10 }

/-- A weather oracle always reporting `w0` and no risks. -/
def wo0 : WeatherOracle := { conditions := fun _ => w0, risks := fun _ => [] }

/-- The weather snapshot of the spec's worked example: precipitation 25,
temperature 3, visibility 10. -/
def w5 : Weather := { temperature := 3, wind_speed := 0, precipitation := 25, visibility := 10 }

/-- A weather oracle always reporting `w5`. -/
def wo5 : WeatherOracle := { conditions := fun _ => w5, risks := fun _ => [] }

/-- A concrete stand-in for Python's `hash` builtin. -/
def h0 : String → Int := fun _ => 0

/-- Zero jitter draws for the GeoJSON interaction points. -/
def jit0 : Nat → ℚ × ℚ := fun _ => (0, 0)

/-- A concrete stand-in for the floating-point square root. -/
def fsqrt0 : ℚ → ℚ := fun _ => 0

/-- Obstacle draws with zero jitter and no detail values. -/
def od0 : String → ObstacleDraw := fun _ => { jitter := (0, 0), details := [] }

/-- Concrete analysis draws: no mountain/river/desert/swamp, moderate
vegetation, in-range elevations. -/
def ad0 : AnalysisDraws :=
  { terrain_types := ["plains", "urban", "tundra"],
    elevation_min := 200, elevation_max := 1400, slope := 10,
    water_bodies := 1, vegetation_density := 1/2, soil_type := "rocky" }

/-- Analysis draws hitting the overlap of the two elevation `randint`
ranges: both draws land on 1300. -/
def adBad : AnalysisDraws :=
  { terrain_types := ["plains", "urban", "tundra"],
    elevation_min := 1300, elevation_max := 1300, slope := 10,
    water_bodies := 1, vegetation_density := 1/2, soil_type := "rocky" }

/-- A cached analysis with no `river` terrain type, for a location whose
name contains the substring `obstacle_type`. -/
def a3 : TerrainAnalysis :=
  { location := "check_obstacle_type_region", resolution := "medium",
    terrain_types := ["plains", "urban", "tundra"],
    elevation_min := 200, elevation_max := 900, slope := 10,
    water_bodies := 0, vegetation_density := 1/2, soil_type := "rocky",
    analysis_timestamp := 0, weather_conditions := some w0,
    weather_risks := some [], terrain_weather_interactions := some [] }

/-- Agent state caching `a3`. -/
def st3 : AgentState :=
  { current_analysis := [("check_obstacle_type_region", a3)], obstacle_database := [] }

/-- A cached analysis for the worked crossing-difficulty example. -/
def a5 : TerrainAnalysis :=
  { location := "wc_loc", resolution := "medium",
    terrain_types := ["river", "plains", "urban"],
    elevation_min := 200, elevation_max := 900, slope := 10,
    water_bodies := 1, vegetation_density := 1/2, soil_type := "rocky",
    analysis_timestamp := 0, weather_conditions := some w5,
    weather_risks := some [], terrain_weather_interactions := some [] }

/-- A cached water-crossing obstacle. -/
def obsW : Obstacle :=
  { ty := "water_crossing", severity := "medium", coordinates := (0, 0), details := [] }

/-- Agent state caching `a5` together with the single obstacle `obsW`. -/
def st5 : AgentState :=
  { current_analysis := [("wc_loc", a5)], obstacle_database := [("wc_loc", [obsW])] }

/-- The evaluation record produced for `obsW` under `w5`. -/
def e5 : Evaluation :=
  { obstacle_id := 0, coordinates := (0, 0), base_difficulty := 4,
    weather_modifier := 3, final_difficulty := 7, difficulty_rating := "extreme",
    crossing_recommendation := "Do not attempt crossing; find alternate route",
    estimated_crossing_time := 25/2 }

/-- A cached analysis produced with `include_weather=false` (stores no
weather snapshot). -/
def a10 : TerrainAnalysis :=
  { location := "dry_run_site", resolution := "medium",
    terrain_types := ["forest", "plains", "urban"],
    elevation_min := 200, elevation_max := 900, slope := 10,
    water_bodies := 0, vegetation_density := 1/2, soil_type := "rocky",
    analysis_timestamp := 7, weather_conditions := none,
    weather_risks := none, terrain_weather_interactions := none }

/-- Agent state caching `a10`. -/
def st10 : AgentState :=
  { current_analysis := [("dry_run_site", a10)], obstacle_database := [] }

/-- The terrain snapshot of the `reduced_visibility` failing input:
slope 40 (greater than 30), no other rule enabled. -/
def t2 : TerrainAnalysis :=
  { location := "fog_flats", resolution := "medium",
    terrain_types := ["plains", "urban", "tundra"],
    elevation_min := 200, elevation_max := 900, slope := 40,
    water_bodies := 0, vegetation_density := 1/2, soil_type := "rocky",
    analysis_timestamp := 0, weather_conditions := none,
    weather_risks := none, terrain_weather_interactions := none }

/-- Weather with visibility 3 (below the reduced-visibility threshold 5),
all other fields benign. -/
def w2 : Weather := { temperature := 20, wind_speed := 0, precipitation := 0, visibility := 3 }

/-- Agent state with both caches filled for location `m_loc` (an empty
obstacle list is still a cache hit). -/
def stC1 : AgentState :=
  { current_analysis :=
      [("m_loc",
        { location := "m_loc", resolution := "medium",
          terrain_types := ["plains", "urban", "tundra"],
          elevation_min := 200, elevation_max := 900, slope := 10,
          water_bodies := 0, vegetation_density := 1/2, soil_type := "rocky",
          analysis_timestamp := 0, weather_conditions := some w0,
          weather_risks := some [], terrain_weather_interactions := some [] })],
    obstacle_database := [("m_loc", [])] }

/-! ### Helper lemmas -/

theorem weatherGet_temperature (w : Weather) (d : ℚ) :
    weatherGet w "temperature" d = w.temperature := rfl

theorem weatherGet_wind_speed (w : Weather) (d : ℚ) :
    weatherGet w "wind_speed" d = w.wind_speed := rfl

theorem weatherGet_precipitation (w : Weather) (d : ℚ) :
    weatherGet w "precipitation" d = w.precipitation := rfl

theorem weatherGet_visibility (w : Weather) (d : ℚ) :
    weatherGet w "visibility" d = w.visibility := rfl

theorem weatherGet_slope (w : Weather) (d : ℚ) :
    weatherGet w "slope" d = d := rfl

theorem dictGet_dictInsert_self {α : Type} (d : List (String × α)) (k : String) (v : α) :
    dictGet (dictInsert d k v) k = some v := by
  induction d with
  | nil => simp [dictGet, dictInsert]
  | cons kv rest ih =>
    by_cases hk : kv.1 = k
    · simp [dictInsert, hk, dictGet]
    · simpa [dictInsert, hk, dictGet] using ih

/-- The analysis record returned by `analyze_terrain` carries the drawn
elevation values, whether or not weather is attached. -/
theorem analyzeTerrain_elevation (wo : WeatherOracle) (st : AgentState)
    (location resolution : String) (iw : Bool) (d : AnalysisDraws) (ts : Nat) :
    (analyzeTerrain wo st location resolution iw d ts).1.elevation_min = d.elevation_min ∧
    (analyzeTerrain wo st location resolution iw d ts).1.elevation_max = d.elevation_max := by
  cases iw <;> exact ⟨rfl, rfl⟩

/-- `analyze_terrain` caches exactly the analysis it returns. -/
theorem analyzeTerrain_state (wo : WeatherOracle) (st : AgentState)
    (location resolution : String) (iw : Bool) (d : AnalysisDraws) (ts : Nat) :
    (analyzeTerrain wo st location resolution iw d ts).2 =
      { st with current_analysis := dictInsert st.current_analysis location (analyzeTerrain wo st location resolution iw d ts).1 } := rfl

/-- `identify_obstacles` on a location whose analysis is cached: no fresh
analysis, the obstacle cache is overwritten with the built list. -/
theorem identifyObstacles_cached (wo : WeatherOracle) (h : String → Int)
    (st : AgentState) (location : String) (iw : Bool) (ad : AnalysisDraws)
    (ats : Nat) (od : String → ObstacleDraw) (ts : Nat) (a : TerrainAnalysis)
    (hc : dictGet st.current_analysis location = some a) :
    identifyObstacles wo h st location iw ad ats od ts =
      ({ location := location,
         obstacle_count := (buildObstacles h a location iw od).length,
         obstacles := buildObstacles h a location iw od,
         weather_factored := iw, analysis_timestamp := ts },
       { st with obstacle_database :=
           dictInsert st.obstacle_database location (buildObstacles h a location iw od) }) := by
  simp [identifyObstacles, hc]

/-- Requires-reanalysis boolean versus emptiness of the change list. -/
theorem decide_length_pos_iff {α : Type} (l : List α) :
    (decide (0 < l.length) = true) ↔ l ≠ [] := by
  cases l <;> simp

/-- The read-through prelude is the identity on a state whose two caches
already hold the location. -/
theorem readThroughCaches_cached (wo : WeatherOracle) (h : String → Int)
    (st : AgentState) (location : String) (iw : Bool) (ad : AnalysisDraws)
    (ats : Nat) (od : String → ObstacleDraw) (ots : Nat)
    (a : TerrainAnalysis) (obs : List Obstacle)
    (hc : dictGet st.current_analysis location = some a)
    (hdb : dictGet st.obstacle_database location = some obs) :
    readThroughCaches wo h st location iw ad ats od ots = st := by
  simp [readThroughCaches, hc, hdb]

/-- `get_terrain_map` on a location with both caches filled leaves the
state untouched, whatever the requested format. -/
theorem getTerrainMap_cached_state (wo : WeatherOracle) (h : String → Int)
    (jit : Nat → ℚ × ℚ) (st : AgentState) (location fmt : String) (iw : Bool)
    (ad : AnalysisDraws) (ats : Nat) (od : String → ObstacleDraw) (ots : Nat)
    (a : TerrainAnalysis) (obs : List Obstacle)
    (hc : dictGet st.current_analysis location = some a)
    (hdb : dictGet st.obstacle_database location = some obs) :
    (getTerrainMap wo h jit st location fmt iw ad ats od ots).2 = st := by
  simp only [getTerrainMap,
    readThroughCaches_cached wo h st location iw ad ats od ots a obs hc hdb]
  split <;> rfl

/-- The `type` field of a created obstacle is the requested template key. -/
theorem createObstacle_ty (h : String → Int) (k location : String)
    (d : ObstacleDraw) : (createObstacle h k location d).ty = k := rfl

/-- Obstacle-type membership through a conditional block of obstacles. -/
theorem mem_map_ty_ite (s : String) (c : Prop) [Decidable c] (l : List Obstacle) :
    (s ∈ (if c then l else []).map Obstacle.ty) ↔ (c ∧ s ∈ l.map Obstacle.ty) := by
  split_ifs <;> simp_all

/-- Membership of a `water_crossing` obstacle in the built list is exactly
the line-408 condition: `"river"` among the terrain types OR the substring
`"obstacle_type"` inside the location string. -/
theorem water_crossing_mem_buildObstacles (h : String → Int)
    (a : TerrainAnalysis) (location : String) (iw : Bool)
    (od : String → ObstacleDraw) :
    "water_crossing" ∈ (buildObstacles h a location iw od).map Obstacle.ty ↔
      ("river" ∈ a.terrain_types ∨ strContains location "obstacle_type" = true) := by
  cases hw : (if iw then a.weather_conditions else none) with
  | none =>
    simp [buildObstacles, hw, mem_map_ty_ite, createObstacle_ty, and_assoc,
      exists_and_left, exists_eq_left]
  | some w =>
    simp [buildObstacles, hw, mem_map_ty_ite, createObstacle_ty, and_assoc,
      exists_and_left, exists_eq_left]

/-- Every evaluation in a crossing-difficulty report carries the modifier,
final score and rating computed for its obstacle type and weather. -/
theorem mem_evals_evaluateAgainst (fsqrt : ℚ → ℚ)
    (location obstacle_type : String) (weather : Weather)
    (db : List Obstacle) (ts : Nat) (e : Evaluation)
    (he : e ∈ (evaluateAgainst fsqrt location obstacle_type weather db ts).evals) :
    e.weather_modifier = weatherModifiers obstacle_type weather ∧
    e.final_difficulty = finalScore obstacle_type weather ∧
    e.difficulty_rating = scoreToDifficulty (finalScore obstacle_type weather) := by
  simp only [evaluateAgainst] at he
  split at he
  · simp [EvalResult.evals] at he
  · simp only [EvalResult.evals, List.mem_map] at he
    obtain ⟨o, -, rfl⟩ := he
    exact ⟨rfl, rfl, rfl⟩

/-! ### Claim theorems -/

/-- **C2** (code bug evaluation).  The `reduced_visibility` severity lambda
takes one argument, so `_analyze_terrain_weather_interactions` (line 766)
applies it to the WEATHER snapshot, not the terrain analysis; the lambda's
`terrain.get("slope", 0)` then always reads the default 0 and the severity
is "medium" even though the terrain slope is 40 > 30 (where the spec
demands "high").  First conjunct: on the failing input, the rule fires and
yields severity "medium".  Second conjunct: no reduced-visibility
interaction ever carries any severity other than "medium", for any terrain
and weather. -/
theorem reduced_visibility_severity_is_weather_slope :
    (t2.slope = 40 ∧ w2.visibility = 3 ∧
      analyzeTerrainWeatherInteractions t2 w2 =
        [{ ty := "reduced_visibility",
           description := "Poor visibility increases risk of navigation errors",
           severity := "medium" }]) ∧
    (∀ (t : TerrainAnalysis) (w : Weather) (i : Interaction),
      i ∈ analyzeTerrainWeatherInteractions t w → i.ty = "reduced_visibility" →
      i.severity = "medium") := by
  constructor
  · exact ⟨rfl, rfl, by decide⟩
  · intro t w i hi hty
    simp only [analyzeTerrainWeatherInteractions, List.mem_append] at hi
    rcases hi with ((((((((hi | hi) | hi) | hi) | hi) | hi) | hi) | hi) | hi)
    · split_ifs at hi <;> simp_all
    · split_ifs at hi <;> simp_all
    · split_ifs at hi <;> simp_all
    · split_ifs at hi <;> simp_all
    · split_ifs at hi <;> simp_all
    · split_ifs at hi <;> simp_all
    · split_ifs at hi <;> simp_all
    · split_ifs at hi <;> simp_all
    · rw [weatherGet_slope] at hi
      split_ifs at hi with h1 h2
      · exact absurd h2 (by norm_num)
      · simp_all
      · simp_all

/-- **C4** counterexample: both elevation `randint` ranges contain 1300, so
a draw of (1300, 1300) is possible and produces an analysis with
`elevation.min = elevation.max`, refuting strictness. -/
theorem elevation_strict_cex :
    ElevationDrawsInRange adBad ∧
    ¬((analyzeTerrain wo0 initialState "some_region" "medium" false adBad 0).1.elevation_min <
      (analyzeTerrain wo0 initialState "some_region" "medium" false adBad 0).1.elevation_max) := by
  constructor
  · exact ⟨by decide, by decide, by decide, by decide⟩
  · decide

/-- **C4** (amended): every analysis produced from in-range elevation draws
satisfies `elevation.min ≤ elevation.max` (the two `randint` ranges meet at
1300, so only the non-strict inequality is guaranteed). -/
theorem elevation_min_le_max (wo : WeatherOracle) (st : AgentState)
    (location resolution : String) (iw : Bool) (d : AnalysisDraws) (ts : Nat)
    (hd : ElevationDrawsInRange d) :
    (analyzeTerrain wo st location resolution iw d ts).1.elevation_min ≤
      (analyzeTerrain wo st location resolution iw d ts).1.elevation_max := by
  obtain ⟨he1, he2⟩ := analyzeTerrain_elevation wo st location resolution iw d ts
  rw [he1, he2]
  obtain ⟨_, h2, h3, _⟩ := hd
  omega

/-- **C4** witness: the amended bound evaluated at the draws `ad0`. -/
theorem elevation_min_le_max_witness :
    ElevationDrawsInRange ad0 ∧
    (analyzeTerrain wo0 initialState "some_region" "medium" false ad0 0).1.elevation_min ≤
      (analyzeTerrain wo0 initialState "some_region" "medium" false ad0 0).1.elevation_max :=
  ⟨⟨by decide, by decide, by decide, by decide⟩,
   elevation_min_le_max wo0 initialState "some_region" "medium" false ad0 0
     ⟨by decide, by decide, by decide, by decide⟩⟩

/-- **C8**: `monitor_terrain_changes` on a location with no cached analysis
returns the structured "No prior analysis available" result and leaves the
agent state untouched (no analysis is triggered, no cache is written, and —
being a total function — nothing is raised). -/
theorem monitor_no_prior_analysis (wo : WeatherOracle) (st : AgentState)
    (location : String) (ts : Nat)
    (hc : dictGet st.current_analysis location = none) :
    monitorTerrainChanges wo st location ts =
      (MonitorResult.noAnalysis location "No prior analysis available"
        "Run terrain analysis first", st) := by
  simp [monitorTerrainChanges, hc]

/-- **C8** witness: the fresh agent state has no cached analysis. -/
theorem monitor_no_prior_analysis_witness :
    dictGet initialState.current_analysis "unknown_area" = none ∧
    monitorTerrainChanges wo0 initialState "unknown_area" 3 =
      (MonitorResult.noAnalysis "unknown_area" "No prior analysis available"
        "Run terrain analysis first", initialState) :=
  ⟨rfl, monitor_no_prior_analysis wo0 initialState "unknown_area" 3 rfl⟩

/-- **C10**: when the cached analysis stores no weather snapshot (it was
produced with `include_weather=false`), `monitor_terrain_changes` reports
no detected changes and `requires_reanalysis = false`, whatever the current
weather oracle says. -/
theorem monitor_no_weather_no_changes (wo : WeatherOracle) (st : AgentState)
    (location : String) (ts : Nat) (a : TerrainAnalysis)
    (hc : dictGet st.current_analysis location = some a)
    (hw : a.weather_conditions = none) :
    (monitorTerrainChanges wo st location ts).1.detectedChanges = [] ∧
    (monitorTerrainChanges wo st location ts).1.requiresReanalysis = false := by
  simp [monitorTerrainChanges, hc, hw, MonitorResult.detectedChanges,
    MonitorResult.requiresReanalysis]

/-- **C10** witness: a cached weatherless analysis at `dry_run_site`. -/
theorem monitor_no_weather_no_changes_witness :
    dictGet st10.current_analysis "dry_run_site" = some a10 ∧
    a10.weather_conditions = none ∧
    (monitorTerrainChanges wo0 st10 "dry_run_site" 9).1.detectedChanges = [] ∧
    (monitorTerrainChanges wo0 st10 "dry_run_site" 9).1.requiresReanalysis = false := by
  refine ⟨rfl, rfl, ?_⟩
  exact monitor_no_weather_no_changes wo0 st10 "dry_run_site" 9 a10 rfl rfl

/-- **C6**: for the water_crossing and steep_slope obstacle types, the
final crossing-difficulty score of `evaluate_crossing_difficulty` is
monotonically non-decreasing in precipitation, all other weather fields
held fixed. -/
theorem finalScore_mono_precipitation (obstacle_type : String) (w : Weather)
    (p1 p2 : ℚ)
    (hty : obstacle_type = "water_crossing" ∨ obstacle_type = "steep_slope")
    (hp : p1 ≤ p2) :
    finalScore obstacle_type { w with precipitation := p1 } ≤
      finalScore obstacle_type { w with precipitation := p2 } := by
  rcases hty with rfl | rfl <;>
    simp only [finalScore, weatherModifiers, weatherGet_precipitation,
      weatherGet_temperature, weatherGet_wind_speed, weatherGet_visibility] <;>
    split_ifs <;> simp_all <;> linarith

/-- **C6** witness: water_crossing under `w0`, precipitation 0 versus 30. -/
theorem finalScore_mono_precipitation_witness :
    ("water_crossing" = "water_crossing" ∨ "water_crossing" = "steep_slope") ∧
    (0 : ℚ) ≤ 30 ∧
    finalScore "water_crossing" { w0 with precipitation := 0 } ≤
      finalScore "water_crossing" { w0 with precipitation := 30 } :=
  ⟨Or.inl rfl, by norm_num,
   finalScore_mono_precipitation "water_crossing" w0 0 30 (Or.inl rfl) (by norm_num)⟩

/-- **C7**: in every `monitor_terrain_changes` comparison, the snow_melt
and freezing_conditions rules never both fire (their conditions need the
old temperature below 0 and above 0 respectively), and the returned
`requires_reanalysis` flag is true exactly when the detected-change list is
non-empty. -/
theorem monitor_changes_exclusive_and_flag (wo : WeatherOracle)
    (st : AgentState) (location : String) (ts : Nat) :
    ¬("snow_melt" ∈ ((monitorTerrainChanges wo st location ts).1.detectedChanges.map Change.ty) ∧
      "freezing_conditions" ∈ ((monitorTerrainChanges wo st location ts).1.detectedChanges.map Change.ty)) ∧
    ((monitorTerrainChanges wo st location ts).1.requiresReanalysis = true ↔
      (monitorTerrainChanges wo st location ts).1.detectedChanges ≠ []) := by
  unfold monitorTerrainChanges
  cases hc : dictGet st.current_analysis location with
  | none =>
    simp [MonitorResult.detectedChanges, MonitorResult.requiresReanalysis]
  | some last =>
    cases hw : last.weather_conditions with
    | none =>
      simp [hw, MonitorResult.detectedChanges, MonitorResult.requiresReanalysis]
    | some ow =>
      simp only [hw, MonitorResult.detectedChanges, MonitorResult.requiresReanalysis]
      refine ⟨?_, decide_length_pos_iff _⟩
      rintro ⟨hs, hf⟩
      unfold detectTerrainChanges at hs hf
      simp only [List.map_append, List.mem_append] at hs hf
      have hs3 : weatherGet ow "temperature" 0 < 0 := by
        rcases hs with ((hs | hs) | hs) | hs <;>
          split_ifs at hs <;>
          simp_all [increasedWaterChange, fallenTreesChange, snowMeltChange, freezingChange]
      have hf4 : weatherGet ow "temperature" 0 > 0 := by
        rcases hf with ((hf | hf) | hf) | hf <;>
          split_ifs at hf <;>
          simp_all [increasedWaterChange, fallenTreesChange, snowMeltChange, freezingChange]
      linarith

/-- **C3** counterexample: the location string
`"check_obstacle_type_region"` contains the substring `"obstacle_type"`, so
`identify_obstacles` emits a water_crossing obstacle although `"river"` is
not among the cached analysis's terrain types (line 408:
`if "river" in analysis["terrain_types"] or "obstacle_type" in location`). -/
theorem water_crossing_without_river_cex :
    ("river" ∉ a3.terrain_types) ∧
    "water_crossing" ∈
      ((identifyObstacles wo0 h0 st3 "check_obstacle_type_region" true ad0 0 od0 1).1.obstacles.map
        Obstacle.ty) := by
  exact ⟨by decide, by with_unfolding_all decide⟩

/-- **C3** (amended): for a location whose analysis is cached,
`identify_obstacles` emits a water_crossing obstacle exactly when `"river"`
is among the cached terrain types OR the location string contains the
substring `"obstacle_type"`. -/
theorem water_crossing_iff_river_or_marker (wo : WeatherOracle)
    (h : String → Int) (st : AgentState) (location : String) (iw : Bool)
    (ad : AnalysisDraws) (ats : Nat) (od : String → ObstacleDraw) (ts : Nat)
    (a : TerrainAnalysis)
    (hc : dictGet st.current_analysis location = some a) :
    "water_crossing" ∈
        ((identifyObstacles wo h st location iw ad ats od ts).1.obstacles.map Obstacle.ty) ↔
      ("river" ∈ a.terrain_types ∨ strContains location "obstacle_type" = true) := by
  rw [identifyObstacles_cached wo h st location iw ad ats od ts a hc]
  exact water_crossing_mem_buildObstacles h a location iw od

/-- **C3** witness: the amended equivalence applied at the cached state
`st3` (where the substring disjunct is what fires). -/
theorem water_crossing_iff_river_or_marker_witness :
    dictGet st3.current_analysis "check_obstacle_type_region" = some a3 ∧
    ("water_crossing" ∈
        ((identifyObstacles wo0 h0 st3 "check_obstacle_type_region" true ad0 0 od0 1).1.obstacles.map
          Obstacle.ty) ↔
      ("river" ∈ a3.terrain_types ∨
        strContains "check_obstacle_type_region" "obstacle_type" = true)) :=
  ⟨rfl, water_crossing_iff_river_or_marker wo0 h0 st3 "check_obstacle_type_region"
    true ad0 0 od0 1 a3 rfl⟩

/-- **C9**: after `analyze_terrain` caches an analysis, the subsequent
`identify_obstacles` and `get_terrain_map` calls for the same location find
the caches filled and never re-analyse — the cached snapshot (its
`analysis_timestamp` included) is looked up unchanged after both calls,
whatever draws, timestamps, weather flags and format the later calls carry. -/
theorem analysis_cache_stable_roundtrip (wo : WeatherOracle)
    (h : String → Int) (jit : Nat → ℚ × ℚ) (st0 : AgentState)
    (location resolution : String) (iw1 iw2 iw3 : Bool)
    (ad ad2 ad3 : AnalysisDraws) (ats ats2 ats3 : Nat)
    (od od3 : String → ObstacleDraw) (ots ots3 : Nat) (fmt : String) :
    dictGet ((identifyObstacles wo h (analyzeTerrain wo st0 location resolution iw1 ad ats).2
        location iw2 ad2 ats2 od ots).2.current_analysis) location =
      some (analyzeTerrain wo st0 location resolution iw1 ad ats).1 ∧
    dictGet ((getTerrainMap wo h jit
        (identifyObstacles wo h (analyzeTerrain wo st0 location resolution iw1 ad ats).2
          location iw2 ad2 ats2 od ots).2
        location fmt iw3 ad3 ats3 od3 ots3).2.current_analysis) location =
      some (analyzeTerrain wo st0 location resolution iw1 ad ats).1 := by
  have h1 : dictGet (analyzeTerrain wo st0 location resolution iw1 ad ats).2.current_analysis location =
      some (analyzeTerrain wo st0 location resolution iw1 ad ats).1 := by
    rw [analyzeTerrain_state]
    exact dictGet_dictInsert_self _ _ _
  have hid := identifyObstacles_cached wo h
    (analyzeTerrain wo st0 location resolution iw1 ad ats).2 location iw2 ad2 ats2 od ots
    (analyzeTerrain wo st0 location resolution iw1 ad ats).1 h1
  have h2 : (identifyObstacles wo h (analyzeTerrain wo st0 location resolution iw1 ad ats).2
      location iw2 ad2 ats2 od ots).2.current_analysis =
      (analyzeTerrain wo st0 location resolution iw1 ad ats).2.current_analysis := by
    rw [hid]
  have h3 : dictGet ((identifyObstacles wo h (analyzeTerrain wo st0 location resolution iw1 ad ats).2
      location iw2 ad2 ats2 od ots).2.current_analysis) location =
      some (analyzeTerrain wo st0 location resolution iw1 ad ats).1 := by
    rw [h2]; exact h1
  refine ⟨h3, ?_⟩
  have hdb : dictGet ((identifyObstacles wo h (analyzeTerrain wo st0 location resolution iw1 ad ats).2
      location iw2 ad2 ats2 od ots).2.obstacle_database) location =
      some (buildObstacles h (analyzeTerrain wo st0 location resolution iw1 ad ats).1 location iw2 od) := by
    rw [hid]
    exact dictGet_dictInsert_self _ _ _
  rw [getTerrainMap_cached_state wo h jit _ location fmt iw3 ad3 ats3 od3 ots3 _ _ h3 hdb]
  exact h3

/-- **C5**: under weather with precipitation 25, temperature 3 and
visibility 10 (any wind), every evaluation that
`evaluate_crossing_difficulty` produces for obstacle type water_crossing
has weather_modifier 3, final score 7 and rating "extreme"; and the
score-to-tier mapping sends ≤2 to easy, 3-4 to moderate, 5-6 to difficult
and >6 to extreme. -/
theorem crossing_difficulty_example_and_tiers :
    (∀ (wind : ℚ) (wo : WeatherOracle) (h : String → Int) (fsqrt : ℚ → ℚ)
       (st : AgentState) (location : String) (ad : AnalysisDraws) (ats : Nat)
       (od : String → ObstacleDraw) (ots ts : Nat) (e : Evaluation),
       wo.conditions location =
         { temperature := 3, wind_speed := wind, precipitation := 25, visibility := 10 } →
       e ∈ (evaluateCrossingDifficulty wo h fsqrt st location "water_crossing"
              ad ats od ots ts).1.evals →
       e.weather_modifier = 3 ∧ e.final_difficulty = 7 ∧ e.difficulty_rating = "extreme") ∧
    (∀ s : Int,
       (s ≤ 2 → scoreToDifficulty s = "easy") ∧
       (3 ≤ s → s ≤ 4 → scoreToDifficulty s = "moderate") ∧
       (5 ≤ s → s ≤ 6 → scoreToDifficulty s = "difficult") ∧
       (6 < s → scoreToDifficulty s = "extreme")) := by
  constructor
  · intro wind wo h fsqrt st location ad ats od ots ts e hcw he
    obtain ⟨h1, h2, h3⟩ := mem_evals_evaluateAgainst fsqrt location "water_crossing"
      (wo.conditions location) _ ts e he
    have hm : weatherModifiers "water_crossing" (wo.conditions location) = 3 := by
      rw [hcw]
      norm_num [weatherModifiers, weatherGet_precipitation, weatherGet_temperature,
        weatherGet_visibility]
    have hf : finalScore "water_crossing" (wo.conditions location) = 7 := by
      unfold finalScore
      rw [hm]
      rfl
    exact ⟨h1.trans hm, h2.trans hf, h3.trans (by rw [hf]; rfl)⟩
  · intro s
    refine ⟨?_, ?_, ?_, ?_⟩ <;> intros <;> unfold scoreToDifficulty <;>
      split_ifs <;> first | rfl | omega

/-- **C5** witness: the worked example at the cached state `st5` (one
water-crossing obstacle, weather (3, 0, 25, 10)) produces exactly the
evaluation `e5` with modifier 3, final score 7, rating "extreme". -/
theorem crossing_difficulty_example_witness :
    (e5 ∈ (evaluateCrossingDifficulty wo5 h0 fsqrt0 st5 "wc_loc" "water_crossing"
        ad0 0 od0 1 2).1.evals) ∧
    (e5.weather_modifier = 3 ∧ e5.final_difficulty = 7 ∧ e5.difficulty_rating = "extreme") :=
  ⟨by with_unfolding_all decide,
   crossing_difficulty_example_and_tiers.1 0 wo5 h0 fsqrt0 st5 "wc_loc" ad0 0 od0 1 2 e5
     rfl (by with_unfolding_all decide)⟩

/-- **C1** counterexample: on a location with no cached analysis, the
"no matching obstacles" failure of `evaluate_crossing_difficulty` is only
detected AFTER the read-through calls have mutated both caches (lines
603-607 run before the check at line 614): the call reports the failure yet
the state differs from the initial one. -/
theorem reported_failure_mutates_state_cex :
    ((evaluateCrossingDifficulty wo0 h0 fsqrt0 initialState "fresh_site" "water_crossing"
        ad0 0 od0 1 2).1 =
      EvalResult.noMatch "fresh_site" "water_crossing" w0 "No matching obstacles found"
        "Run identify_obstacles to update obstacle database or try a different obstacle type") ∧
    (evaluateCrossingDifficulty wo0 h0 fsqrt0 initialState "fresh_site" "water_crossing"
        ad0 0 od0 1 2).2 ≠ initialState := by
  exact ⟨by with_unfolding_all decide, by with_unfolding_all decide⟩

/-- **C1** (amended): when the location's analysis AND obstacle list are
already cached, the two reported failures are detected before any mutation:
an unsupported format in `get_terrain_map` and a missing obstacle match in
`evaluate_crossing_difficulty` both return their structured error with the
agent state exactly as before the call. -/
theorem reported_failures_preserve_cached_state :
    (∀ (wo : WeatherOracle) (h : String → Int) (jit : Nat → ℚ × ℚ)
       (st : AgentState) (location fmt : String) (iw : Bool)
       (ad : AnalysisDraws) (ats : Nat) (od : String → ObstacleDraw) (ots : Nat)
       (a : TerrainAnalysis) (obs : List Obstacle),
       dictGet st.current_analysis location = some a →
       dictGet st.obstacle_database location = some obs →
       strLower fmt ≠ "geojson" →
       getTerrainMap wo h jit st location fmt iw ad ats od ots =
         (MapResult.unsupported ("Unsupported format: " ++ fmt), st)) ∧
    (∀ (wo : WeatherOracle) (h : String → Int) (fsqrt : ℚ → ℚ)
       (st : AgentState) (location obstacle_type : String)
       (ad : AnalysisDraws) (ats : Nat) (od : String → ObstacleDraw) (ots ts : Nat)
       (a : TerrainAnalysis) (obs : List Obstacle),
       dictGet st.current_analysis location = some a →
       dictGet st.obstacle_database location = some obs →
       obs.filter (fun o => o.ty = obstacle_type) = [] →
       evaluateCrossingDifficulty wo h fsqrt st location obstacle_type ad ats od ots ts =
         (EvalResult.noMatch location obstacle_type (wo.conditions location)
           "No matching obstacles found"
           "Run identify_obstacles to update obstacle database or try a different obstacle type",
          st)) := by
  constructor
  · intro wo h jit st location fmt iw ad ats od ots a obs hc hdb hfmt
    simp [getTerrainMap,
      readThroughCaches_cached wo h st location iw ad ats od ots a obs hc hdb, hfmt]
  · intro wo h fsqrt st location obstacle_type ad ats od ots ts a obs hc hdb hfil
    simp [evaluateCrossingDifficulty, evaluateAgainst,
      readThroughCaches_cached wo h st location true ad ats od ots a obs hc hdb, hdb, hfil]

/-- **C1** witness: at the doubly-cached state `stC1`, both failing calls
return their structured errors with the state unchanged. -/
theorem reported_failures_preserve_cached_state_witness :
    (getTerrainMap wo0 h0 jit0 stC1 "m_loc" "xml" true ad0 0 od0 1 =
      (MapResult.unsupported "Unsupported format: xml", stC1)) ∧
    (evaluateCrossingDifficulty wo0 h0 fsqrt0 stC1 "m_loc" "water_crossing" ad0 0 od0 1 2 =
      (EvalResult.noMatch "m_loc" "water_crossing" w0 "No matching obstacles found"
        "Run identify_obstacles to update obstacle database or try a different obstacle type",
       stC1)) :=
  ⟨reported_failures_preserve_cached_state.1 wo0 h0 jit0 stC1 "m_loc" "xml" true
     ad0 0 od0 1 _ _ rfl rfl (by decide),
   reported_failures_preserve_cached_state.2 wo0 h0 fsqrt0 stC1 "m_loc" "water_crossing"
     ad0 0 od0 1 2 _ _ rfl rfl rfl⟩

end SAR
